import Mathlib

/-!
Verification of the Basketball Reference Top-15 Leaders scraper
(`src/scraper.py`) against its natural-language specification.

The HTML document is modelled as a tree of nodes; BeautifulSoup's
traversal primitives (`find`, `find_all`, `.text`) are modelled as
preorder searches over the descendant list, matching document order.
Python string operations (`strip`, `strip('()')`, `split`, `in`,
`float(...)`) are modelled explicitly.  Exceptions are modelled with
`Except`; the `try/except` of `parse_data` becomes the conversion of an
`Except.error` result into `none`.
-/

/-- An HTML node: an element with a tag, attributes and children, or a
text node.  This models the parsed document BeautifulSoup produces. -/
inductive Node where
  | elem (tag : String) (attrs : List (String × String)) (children : List Node)
  | text (s : String)

mutual

/-- All descendants of a node, in preorder (document order), excluding
the node itself.  This is the search space of BeautifulSoup's
`tag.find` / `tag.find_all`. -/
def descendants : Node → List Node
  | .text _ => []
  | .elem _ _ cs => descendantsList cs

/-- Preorder listing of a forest: each root followed by its descendants.
For a whole document this is the search space of `soup.find`. -/
def descendantsList : List Node → List Node
  | [] => []
  | c :: cs => c :: descendants c ++ descendantsList cs

end

mutual

/-- Concatenated text content of a node, in document order: models
BeautifulSoup's `.text`. -/
def innerText : Node → String
  | .text s => s
  | .elem _ _ cs => innerTextList cs

/-- Concatenated text content of a forest. -/
def innerTextList : List Node → String
  | [] => ""
  | c :: cs => innerText c ++ innerTextList cs

end

/-- The characters Python's `str.strip()` removes. -/
def pyIsSpace (c : Char) : Bool :=
  c == ' ' || c == '\t' || c == '\n' || c == '\r' || c == '\x0b' || c == '\x0c'

/-- Drop characters satisfying `p` from both ends of a character list:
the core of Python's `str.strip`. -/
def stripList (p : Char → Bool) (l : List Char) : List Char :=
  ((l.dropWhile p).reverse.dropWhile p).reverse

/-- Python's `s.strip()` (whitespace strip). -/
def pyStripWs (s : String) : String := ⟨stripList pyIsSpace s.toList⟩

/-- Python's `s.strip(chars)`: removes any of `cs` from both ends. -/
def pyStripChars (s : String) (cs : List Char) : String :=
  ⟨stripList (cs.contains ·) s.toList⟩

/-- Split a character list on whitespace (accumulator-passing helper for
Python's `str.split()`; empty pieces are filtered out by the caller). -/
def splitWsAux : List Char → List Char → List (List Char)
  | [], acc => [acc.reverse]
  | c :: rest, acc =>
    if pyIsSpace c then acc.reverse :: splitWsAux rest []
    else splitWsAux rest (c :: acc)

/-- The classes of an element, as BeautifulSoup sees them: the `class`
attribute split on whitespace. -/
def getClasses (attrs : List (String × String)) : List String :=
  match attrs.lookup "class" with
  | none => []
  | some s => ((splitWsAux s.toList []).filter (· ≠ [])).map (fun l => ⟨l⟩)

/-- Matcher for `soup.find('div', {'id': i})`. -/
def isDivWithId (i : String) : Node → Bool
  | .elem t attrs _ => t == "div" && attrs.lookup "id" == some i
  | .text _ => false

/-- Matcher for `find('td', {'class': c})`. -/
def isTdWithClass (c : String) : Node → Bool
  | .elem t attrs _ => t == "td" && (getClasses attrs).contains c
  | .text _ => false

/-- Matcher for `find_all('tr')`. -/
def isTr : Node → Bool
  | .elem t _ _ => t == "tr"
  | .text _ => false

/-- Matcher for `find('a')`. -/
def isATag : Node → Bool
  | .elem t _ _ => t == "a"
  | .text _ => false

/-- Matcher for `find('span', {'class': 'desc'})`. -/
def isSpanDesc : Node → Bool
  | .elem t attrs _ => t == "span" && (getClasses attrs).contains "desc"
  | .text _ => false

/-- `soup.find('div', {'id': statId})`: first matching element of the
whole document in document order. -/
def findDivById (html : List Node) (statId : String) : Option Node :=
  (descendantsList html).find? (isDivWithId statId)

/-- `tag.find(...)`: first descendant of `n` satisfying `p`, in document
order. -/
def findDesc (n : Node) (p : Node → Bool) : Option Node :=
  (descendants n).find? p

/-- Numeric value of a digit list (most significant first). -/
def digitsVal (l : List Char) : ℕ :=
  l.foldl (fun a c => 10 * a + (c.toNat - 48)) 0

/-- Consume an optional sign, returning the sign as a rational. -/
def pySign : List Char → ℚ × List Char
  | '+' :: rest => (1, rest)
  | '-' :: rest => (-1, rest)
  | l => (1, l)

/-- Consume an optional sign, returning the sign as an integer. -/
def pySignInt : List Char → ℤ × List Char
  | '+' :: rest => (1, rest)
  | '-' :: rest => (-1, rest)
  | l => (1, l)

/-- Python's `float(s)` on an already-stripped string, modelled over ℚ:
optional sign, digits with optional fraction, optional exponent.
(The special forms `inf`/`nan` and underscore separators are not
modelled; the page's value cells are plain decimals.)  Returns `none`
exactly when Python's `float` raises `ValueError`. -/
def pyFloat (s : String) : Option ℚ :=
  let sl := pySign s.toList
  let ip := sl.2.takeWhile Char.isDigit
  let l1 := sl.2.dropWhile Char.isDigit
  let fpl : List Char × List Char :=
    match l1 with
    | '.' :: rest => (rest.takeWhile Char.isDigit, rest.dropWhile Char.isDigit)
    | _ => ([], l1)
  if ip.isEmpty && fpl.1.isEmpty then none
  else
    let expRes : Option (ℤ × List Char) :=
      match fpl.2 with
      | 'e' :: rest | 'E' :: rest =>
        let es := pySignInt rest
        let ed := es.2.takeWhile Char.isDigit
        if ed.isEmpty then none
        else some (es.1 * (digitsVal ed : ℤ), es.2.dropWhile Char.isDigit)
      | rest => some (0, rest)
    match expRes with
    | none => none
    | some (ev, rest) =>
      if rest.isEmpty then
        some (sl.1 * ((digitsVal ip : ℚ) + (digitsVal fpl.1 : ℚ) / (10 : ℚ) ^ fpl.1.length)
          * (10 : ℚ) ^ ev)
      else none

/-- Lines 95-96 of `scraper.py`:
`player_cell.find('a').text.strip() if player_cell.find('a') else ""`. -/
def extractName (cell : Node) : String :=
  match findDesc cell isATag with
  | none => ""
  | some a => pyStripWs (innerText a)

/-- Lines 99-105 of `scraper.py`: the team abbreviation from the
`span.desc` sub-element, `"(PHO)"`-style parentheses stripped; empty
string when the span is absent or its text empty. -/
def extractTeam (cell : Node) : String :=
  match findDesc cell isSpanDesc with
  | none => ""
  | some sp =>
    let t := pyStripWs (innerText sp)
    if t = "" then "" else pyStripChars t ['(', ')']

/-- The per-row body of the loop in `parse_data` (lines 92-112).
`.ok none`: the row has no `td.who` cell and is skipped (nothing is
appended).  `.ok (some (player, team, value))`: a record is appended.
`.error ()`: `float(...)` raised `ValueError` on the value cell's text,
to be caught by the surrounding `try/except`. -/
def processRow (row : Node) : Except Unit (Option (String × String × Option ℚ)) :=
  match findDesc row (isTdWithClass "who") with
  | none => .ok none
  | some cell =>
    let name := extractName cell
    let team := extractTeam cell
    match findDesc row (isTdWithClass "value") with
    | none => .ok (some (name, team, none))
    | some vc =>
      match pyFloat (pyStripWs (innerText vc)) with
      | none => .error ()
      | some v => .ok (some (name, team, some v))

/-- The row loop of `parse_data`: accumulates records in row order,
propagating the first raised exception. -/
def rowsLoop : List Node → Except Unit (List (String × String × Option ℚ))
  | [] => .ok []
  | r :: rs =>
    match processRow r with
    | .error e => .error e
    | .ok none => rowsLoop rs
    | .ok (some x) =>
      match rowsLoop rs with
      | .error e => .error e
      | .ok l => .ok (x :: l)

/-- The pandas data frame `parse_data` builds: three equal-length
columns `Player`, `Team`, `Value`. -/
structure DataFrame where
  players : List String
  teams : List String
  values : List (Option ℚ)
deriving DecidableEq

/-- `df.empty`: a data frame with zero rows. -/
def DataFrame.isEmpty (d : DataFrame) : Bool := d.players.isEmpty

/-- Line 90 of `scraper.py`: `table.find_all('tr')[1:16]` — the `tr`
descendants of the located container, header row dropped, first 15 data
rows kept (empty when the container is absent). -/
def selectedRows (html : List Node) (statId : String) : List Node :=
  match findDivById html statId with
  | none => []
  | some table => (((descendants table).filter isTr).drop 1).take 15

/-- `parse_data(html_content, stat_id)` (lines 76-121): locate the
container div; `None` when absent; walk the selected rows accumulating
records; any exception during traversal is caught and converted to
`None`; otherwise the three-column data frame. -/
def parse_data (html : List Node) (statId : String) : Option DataFrame :=
  match findDivById html statId with
  | none => none
  | some _ =>
    match rowsLoop (selectedRows html statId) with
    | .error _ => none
    | .ok recs => some ⟨recs.map (·.1), recs.map (·.2.1), recs.map (·.2.2)⟩

/-- The `for attempt in range(max_retries)` loop of `fetch_data`
(lines 58-72), over the list of remaining attempt indices.  `transport`
gives each attempt's outcome (`.error` models a raised
`RequestException`).  Returns the final outcome (`none` only for an
empty range), the list of `time.sleep` waits in order, and the number
of attempts made. -/
def fetchGo (transport : ℕ → Except ε String) (maxRetries delay : ℕ) :
    List ℕ → Option (Except ε String) × List ℕ × ℕ
  | [] => (none, [], 0)
  | a :: rest =>
    match transport a with
    | .ok s => (some (.ok s), [], 1)
    | .error e =>
      if a < maxRetries - 1 then
        let r := fetchGo transport maxRetries delay rest
        (r.1, delay * (a + 1) :: r.2.1, r.2.2 + 1)
      else (some (.error e), [], 1)

/-- `fetch_data(url, max_retries=3, delay=2)` (lines 52-72): attempts
`transport` for indices `0 .. maxRetries-1`, sleeping `delay * (attempt+1)`
after each non-final failure, re-raising the last exception after the
final one. -/
def fetch_data (transport : ℕ → Except ε String) (maxRetries delay : ℕ) :
    Option (Except ε String) × List ℕ × ℕ :=
  fetchGo transport maxRetries delay (List.range maxRetries)

/-- Python's `pat in s` substring test. -/
def isSubstrOf (pat s : String) : Bool :=
  (List.range (s.toList.length + 1)).any
    (fun i => (s.toList.drop i).take pat.toList.length == pat.toList)

/-- Python's `f"{v:.1f}"`: the value rendered with exactly one decimal
place (rounded to the nearest tenth). -/
def format1 (q : ℚ) : String :=
  let n : ℤ := round (q * 10)
  let sign := if n < 0 then "-" else ""
  let m := n.natAbs
  sign ++ toString (m / 10) ++ "." ++ toString (m % 10)

/-- Lines 220-225 of `scraper.py`: percentages get one decimal and a
trailing `%`; other statistics one decimal and no suffix. -/
def formatStat (choice : String) (v : ℚ) : String :=
  if isSubstrOf "percentage" choice then format1 v ++ "%" else format1 v

/-- `save_to_csv(df, stat_name)` (lines 125-142), with the file system
made explicit: `timestamp` is the generated timestamp, `writeOk` tells
whether `df.to_csv` succeeds, the result is the returned path and the
list of paths written to.  `df` of `none` models the Python `None`. -/
def save_to_csv (df : Option DataFrame) (statName timestamp : String) (writeOk : Bool) :
    Option String × List String :=
  match df with
  | none => (none, [])
  | some d =>
    if d.isEmpty then (none, [])
    else
      let filename := (statName.replace " " "_").toLower
      let filepath := "data/" ++ filename ++ "_" ++ timestamp ++ ".csv"
      if writeOk then (some filepath, [filepath]) else (none, [filepath])

/-- The `STAT_MAP` dictionary (lines 31-41). -/
def STAT_MAP : List (String × String) :=
  [("points per game", "leaders_pts_per_g"),
   ("rebounds per game", "leaders_trb_per_g"),
   ("assists per game", "leaders_ast_per_g"),
   ("steals per game", "leaders_stl_per_g"),
   ("blocks per game", "leaders_blk_per_g"),
   ("turnovers per game", "leaders_tov_per_g"),
   ("field goal percentage", "leaders_fg_pct"),
   ("3 point percentage", "leaders_fg3_pct"),
   ("free throw percentage", "leaders_ft_pct")]

/-! ## Helper lemmas -/

/-- The row loop never produces more records than it is given rows. -/
theorem rowsLoop_ok_length : ∀ (rs : List Node) (l : List (String × String × Option ℚ)),
    rowsLoop rs = .ok l → l.length ≤ rs.length := by
  intro rs
  induction rs with
  | nil =>
    intro l h
    rw [rowsLoop] at h
    injection h with h
    subst h
    exact Nat.le_refl 0
  | cons r rs ih =>
    intro l h
    rw [rowsLoop] at h
    cases hp : processRow r with
    | error e => rw [hp] at h; exact Except.noConfusion h
    | ok o =>
      rw [hp] at h
      cases o with
      | none =>
        simp only at h
        exact Nat.le_succ_of_le (ih l h)
      | some x =>
        simp only at h
        cases hr : rowsLoop rs with
        | error e => rw [hr] at h; exact Except.noConfusion h
        | ok l2 =>
          rw [hr] at h
          injection h with h
          subst h
          simpa using Nat.succ_le_succ (ih l2 hr)

/-- Rebuilding the records from the three columns gives back the records. -/
theorem zip_columns_eq (recs : List (String × String × Option ℚ)) :
    (recs.map (·.1)).zip ((recs.map (·.2.1)).zip (recs.map (·.2.2))) = recs := by
  induction recs with
  | nil => rfl
  | cons x xs ih => simp [ih]

/-- `parse_data` never selects more than 15 rows. -/
theorem selectedRows_length_le (html : List Node) (statId : String) :
    (selectedRows html statId).length ≤ 15 := by
  rw [selectedRows]
  cases findDivById html statId with
  | none => simp
  | some t => simp [List.length_take]

/-- If any selected row raises, the whole row loop raises. -/
theorem rowsLoop_error_of_mem {r : Node} {rs : List Node} (hm : r ∈ rs)
    (he : processRow r = .error ()) : rowsLoop rs = .error () := by
  induction rs with
  | nil => exact absurd hm (List.not_mem_nil r)
  | cons a t ih =>
    rcases List.mem_cons.mp hm with h | h
    · subst h
      simp [rowsLoop, he]
    · rw [rowsLoop]
      cases hp : processRow a with
      | error e => cases e; rfl
      | ok o =>
        cases o with
        | none => simpa using ih h
        | some x => simp [ih h]

/-! ## Concrete documents used to instantiate the theorems -/

/-- A `td.who` cell holding a name link for "Alice". -/
def aliceWho : Node :=
  Node.elem "td" [("class", "who")] [Node.elem "a" [] [Node.text "Alice"]]

/-- A value cell whose text is not a number. -/
def badValueCell : Node :=
  Node.elem "td" [("class", "value")] [Node.text "abc"]

/-- A data row whose value cell is present but unparsable. -/
def badValueRow : Node := Node.elem "tr" [] [aliceWho, badValueCell]

/-- A document with a header row and one data row with an unparsable
value cell. -/
def docBadValue : List Node :=
  [Node.elem "div" [("id", "t")]
    [Node.elem "tr" [] [Node.elem "th" [] [Node.text "Rk"]], badValueRow]]

/-- A well-formed leaders document: header row plus two data rows (one
with an affiliation span, one without); neither row has a value cell. -/
def docLeaders : List Node :=
  [Node.elem "div" [("id", "leaders_pts_per_g")] [
    Node.elem "table" [] [
      Node.elem "tr" [] [Node.elem "th" [] [Node.text "Rank"]],
      Node.elem "tr" [] [
        Node.elem "td" [("class", "who")] [
          Node.elem "a" [] [Node.text "Alice Guard"],
          Node.elem "span" [("class", "desc")] [Node.text " (PHO) "]]],
      Node.elem "tr" [] [
        Node.elem "td" [("class", "who")] [
          Node.elem "a" [] [Node.text "Bob Center"]]]]]]

/-- A `td.who` cell with a link but no affiliation span. -/
def whoOnlyCell : Node :=
  Node.elem "td" [("class", "who")] [Node.elem "a" [] [Node.text "Cara Wing"]]

/-- A data row with a player cell but no value cell. -/
def rowNoValue : Node := Node.elem "tr" [] [whoOnlyCell]

/-! ## Claims -/

/-- C1: for every markup input lacking a container element with the given
table id, `parse_data` returns `none`; and whenever an exception occurs
during row traversal (the row loop yields `.error`), it is caught at
whole-extraction granularity and `parse_data` returns `none`.  No
exception is ever propagated: `parse_data` is a total function into
`Option DataFrame`. -/
theorem parse_data_notFound_or_caught (html : List Node) (statId : String) :
    (findDivById html statId = none → parse_data html statId = none) ∧
    (rowsLoop (selectedRows html statId) = .error () → parse_data html statId = none) := by
  constructor
  · intro h
    simp only [parse_data, h]
  · intro h
    simp only [parse_data]
    cases hf : findDivById html statId with
    | none => rfl
    | some t => simp only [h]

/-- C1 witness: a document with no matching id gives `none`, and a
document whose traversal raises (unparsable value cell) gives `none`. -/
theorem parse_data_notFound_or_caught_case :
    parse_data [] "leaders_pts_per_g" = none ∧ parse_data docBadValue "t" = none :=
  ⟨(parse_data_notFound_or_caught [] "leaders_pts_per_g").1 rfl,
   (parse_data_notFound_or_caught docBadValue "t").2 rfl⟩

/-- C2: whenever extraction succeeds the result has at most 15 records,
with equal-length `Player`/`Team`/`Value` columns, and zipping the
columns back together gives exactly the records the row loop produced
from the selected rows — the second through sixteenth `tr` of the
container (`selectedRows` is `find_all('tr')[1:16]`, the header row
always skipped) in document order. -/
theorem parse_data_top15_in_order (html : List Node) (statId : String) (df : DataFrame)
    (h : parse_data html statId = some df) :
    df.players.length ≤ 15 ∧ df.teams.length = df.players.length ∧
    df.values.length = df.players.length ∧
    rowsLoop (selectedRows html statId) = .ok (df.players.zip (df.teams.zip df.values)) := by
  simp only [parse_data] at h
  cases hf : findDivById html statId with
  | none => rw [hf] at h; exact Option.noConfusion h
  | some t =>
    rw [hf] at h
    cases hr : rowsLoop (selectedRows html statId) with
    | error e => rw [hr] at h; exact Option.noConfusion h
    | ok recs =>
      rw [hr] at h
      injection h with h
      subst h
      refine ⟨?_, by simp, by simp, ?_⟩
      · simpa using le_trans (rowsLoop_ok_length _ _ hr) (selectedRows_length_le html statId)
      · show Except.ok recs =
          .ok ((recs.map (·.1)).zip ((recs.map (·.2.1)).zip (recs.map (·.2.2))))
        rw [zip_columns_eq]

/-- C2 witness: on a concrete two-data-row document the extraction
succeeds, its length is within 15, and the records are in document
order. -/
theorem parse_data_top15_in_order_case :
    (["Alice Guard", "Bob Center"] : List String).length ≤ 15 ∧
    rowsLoop (selectedRows docLeaders "leaders_pts_per_g") =
      .ok [("Alice Guard", "PHO", none), ("Bob Center", "", none)] := by
  have h := parse_data_top15_in_order docLeaders "leaders_pts_per_g"
    ⟨["Alice Guard", "Bob Center"], ["PHO", ""], [none, none]⟩ (by decide)
  exact ⟨h.1, h.2.2.2⟩

/-- C3: with `max_retries = 3` and `delay = 2`, if every attempt's
transport fails then exactly three attempts are made, the waits before
attempts 2 and 3 are `2 = 2*(2-1)` and `4 = 2*(3-1)` seconds, and the
call fails carrying the last underlying cause (`raise` re-raises the
third attempt's exception). -/
theorem fetch_data_three_failures {ε : Type} (transport : ℕ → Except ε String)
    (e0 e1 e2 : ε) (h0 : transport 0 = .error e0) (h1 : transport 1 = .error e1)
    (h2 : transport 2 = .error e2) :
    fetch_data transport 3 2 = (some (.error e2), [2, 4], 3) := by
  have hr : List.range 3 = [0, 1, 2] := rfl
  simp only [fetch_data, hr]
  simp [fetchGo, h0, h1, h2]

/-- C3 witness: a transport that always fails with cause `7`. -/
theorem fetch_data_three_failures_case :
    fetch_data (fun _ => (Except.error 7 : Except ℕ String)) 3 2 =
      (some (.error 7), [2, 4], 3) :=
  fetch_data_three_failures _ 7 7 7 rfl rfl rfl

/-- C4: for every processed row (one having a `td.who` cell) whose value
cell is absent, the produced record's value is `none` — no coerced zero
and no exception. -/
theorem missing_value_cell_gives_absent (row cell : Node)
    (hwho : findDesc row (isTdWithClass "who") = some cell)
    (hval : findDesc row (isTdWithClass "value") = none) :
    processRow row = .ok (some (extractName cell, extractTeam cell, none)) := by
  simp only [processRow, hwho, hval]

/-- C4 witness: a concrete row with a player cell and no value cell
produces the record with `value = none`. -/
theorem missing_value_cell_gives_absent_case :
    processRow rowNoValue = .ok (some ("Cara Wing", "", none)) :=
  missing_value_cell_gives_absent rowNoValue whoOnlyCell rfl rfl

/-- C5 counterexample: on a document whose single data row has a present
but unparsable value cell (`"abc"`), the claimed behaviour would be a
`LeaderSet` with that record's value nulled
(`some ⟨["Alice"], [""], [none]⟩`); the code instead aborts the whole
extraction: `float("abc")` raises and the outer handler returns `None`. -/
theorem unparsable_value_not_tolerated :
    parse_data docBadValue "t" ≠ some ⟨["Alice"], [""], [none]⟩ ∧
    parse_data docBadValue "t" = none :=
  ⟨by decide, by decide⟩

/-- C5 (amended): for every processed row whose value cell is present but
whose trimmed text is not parsable as a number, `float(...)` raises, so
the whole extraction fails: `parse_data` returns `none` (the error is
caught at whole-extraction granularity), rather than nulling just that
record's value. -/
theorem unparsable_value_fails_extraction (html : List Node) (statId : String)
    (row cell vc : Node)
    (hrow : row ∈ selectedRows html statId)
    (hwho : findDesc row (isTdWithClass "who") = some cell)
    (hval : findDesc row (isTdWithClass "value") = some vc)
    (hbad : pyFloat (pyStripWs (innerText vc)) = none) :
    parse_data html statId = none := by
  have hpr : processRow row = .error () := by
    simp only [processRow, hwho, hval, hbad]
  have herr := rowsLoop_error_of_mem hrow hpr
  cases hf : findDivById html statId with
  | none =>
    exfalso
    simp only [selectedRows, hf] at hrow
    exact absurd hrow (List.not_mem_nil row)
  | some t => simp only [parse_data, hf, herr]

/-- C5 amended witness: the concrete unparsable-value document. -/
theorem unparsable_value_fails_extraction_case :
    parse_data docBadValue "t" = none :=
  unparsable_value_fails_extraction docBadValue "t" badValueRow aliceWho badValueCell
    (by
      have hsel : selectedRows docBadValue "t" = [badValueRow] := rfl
      rw [hsel]
      exact List.mem_singleton.mpr rfl)
    rfl rfl rfl

/-- A data row that has only a value cell and no `td.who` cell. -/
def noWhoRow : Node :=
  Node.elem "tr" [] [Node.elem "td" [("class", "value")] [Node.text "5.0"]]

/-- A document with a header row and one data row lacking the who cell. -/
def docNoWho : List Node :=
  [Node.elem "div" [("id", "t")]
    [Node.elem "tr" [] [Node.elem "th" [] [Node.text "Rk"]], noWhoRow]]

/-- An empty `td.who` cell (no link, no span). -/
def bareWhoCell : Node := Node.elem "td" [("class", "who")] []


/-- C6 counterexample: one data row lacking the `td.who` cell is
selected, yet the extraction returns zero records — no record is
produced for the malformed row, contradicting the claim's "a record
that is still produced". -/
theorem malformed_row_no_record :
    parse_data docNoWho "t" = some ⟨[], [], []⟩ ∧
    selectedRows docNoWho "t" = [noWhoRow] :=
  ⟨by decide, rfl⟩

/-- A who cell with a name link but no affiliation span. -/
def danaLinkCell : Node :=
  Node.elem "td" [("class", "who")] [Node.elem "a" [] [Node.text "Dana Forward"]]

/-- A data row whose who cell has a link but no span, and no value cell. -/
def danaRow : Node := Node.elem "tr" [] [danaLinkCell]

/-- C6 (amended): a row lacking the `td.who` cell is skipped entirely —
no record is produced and the rest of the extraction is unaffected
(dropping the row from the loop changes nothing).  For a row whose who
cell is present, the missing sub-elements are tolerated per-field,
independently of each other: a missing name link defaults the name to
the empty string, a missing affiliation span defaults the affiliation to
the empty string, and a missing value cell gives an absent value in a
record that is still produced (whose name and affiliation are whatever
the per-field extractors yield).  Neither case fails the extraction or
raises. -/
theorem malformed_row_tolerated (row cell : Node) :
    (findDesc row (isTdWithClass "who") = none →
      processRow row = .ok none ∧ ∀ rs : List Node, rowsLoop (row :: rs) = rowsLoop rs) ∧
    (findDesc cell isATag = none → extractName cell = "") ∧
    (findDesc cell isSpanDesc = none → extractTeam cell = "") ∧
    (findDesc row (isTdWithClass "who") = some cell →
      findDesc row (isTdWithClass "value") = none →
      processRow row = .ok (some (extractName cell, extractTeam cell, none))) := by
  refine ⟨?_, ?_, ?_, ?_⟩
  · intro h
    have hp : processRow row = .ok none := by simp only [processRow, h]
    exact ⟨hp, fun rs => by simp only [rowsLoop, hp]⟩
  · intro ha
    simp only [extractName, ha]
  · intro hs
    simp only [extractTeam, hs]
  · intro h hv
    simp only [processRow, h, hv]

/-- C6 amended witness: the row without a who cell is skipped without
error; a bare who cell defaults the name; a link-only who cell defaults
the affiliation while keeping the name; and the link-only row with no
value cell still produces the record `("Dana Forward", "", none)`. -/
theorem malformed_row_tolerated_case :
    processRow noWhoRow = .ok none ∧ rowsLoop [noWhoRow] = rowsLoop [] ∧
    extractName bareWhoCell = "" ∧ extractTeam danaLinkCell = "" ∧
    processRow danaRow = .ok (some ("Dana Forward", "", none)) :=
  ⟨((malformed_row_tolerated noWhoRow bareWhoCell).1 rfl).1,
   ((malformed_row_tolerated noWhoRow bareWhoCell).1 rfl).2 [],
   (malformed_row_tolerated noWhoRow bareWhoCell).2.1 rfl,
   (malformed_row_tolerated danaRow danaLinkCell).2.2.1 rfl,
   (malformed_row_tolerated danaRow danaLinkCell).2.2.2 rfl rfl⟩

/-- `dropWhile` keeps a list whose head fails the predicate. -/
theorem dropWhile_cons_of_false (p : Char → Bool) (x : Char) (xs : List Char)
    (hx : p x = false) : (x :: xs).dropWhile p = x :: xs := by
  rw [List.dropWhile_cons, hx]
  rfl

/-- Stripping the paren characters from `"(" ++ code ++ ")"` yields
`code`, provided `code` itself contains no parentheses. -/
theorem stripList_paren (code : List Char)
    (hcode : ∀ c ∈ code, (['(', ')'] : List Char).contains c = false) :
    stripList ((['(', ')'] : List Char).contains ·) ('(' :: code ++ [')']) = code := by
  cases code with
  | nil => decide
  | cons a t =>
    have ha : (['(', ')'] : List Char).contains a = false :=
      hcode a (List.mem_cons_self a t)
    unfold stripList
    rw [List.cons_append,
      List.dropWhile_cons,
      if_pos (show (['(', ')'] : List Char).contains '(' = true from rfl),
      List.cons_append,
      dropWhile_cons_of_false (fun c => (['(', ')'] : List Char).contains c)
        a (t ++ [')']) ha,
      show (a :: (t ++ [')'])).reverse = ')' :: (a :: t).reverse by
        rw [← List.cons_append, List.reverse_append]; rfl,
      List.dropWhile_cons,
      if_pos (show (['(', ')'] : List Char).contains ')' = true from rfl)]
    cases hrev : (a :: t).reverse with
    | nil => exact absurd hrev (by simp)
    | cons b bs =>
      have hb : b ∈ a :: t := by
        rw [← List.mem_reverse, hrev]
        exact List.mem_cons_self b bs
      rw [dropWhile_cons_of_false (fun c => (['(', ')'] : List Char).contains c)
        b bs (hcode b hb), ← hrev, List.reverse_reverse]

/-- C7: for every affiliation sub-element (`span.desc`) whose stripped
text has the form `"(XXX)"` with `XXX` free of parentheses, the record's
affiliation equals `XXX` exactly — `strip('()')` removes the parentheses
and the preceding `strip()` removed the surrounding whitespace. -/
theorem affiliation_parens_stripped (cell sp : Node) (code : String)
    (hsp : findDesc cell isSpanDesc = some sp)
    (htext : pyStripWs (innerText sp) = "(" ++ code ++ ")")
    (hcode : ∀ c ∈ code.toList, (['(', ')'] : List Char).contains c = false) :
    extractTeam cell = code := by
  simp only [extractTeam, hsp, htext]
  have hne : ("(" ++ code ++ ")" : String) ≠ "" := by
    intro hc
    have hd : ("(" ++ code ++ ")" : String).data = [] := by rw [hc]
    rw [String.data_append, String.data_append] at hd
    rw [show "(".data = ['('] from rfl] at hd
    simp at hd
  rw [if_neg hne]
  have hdata : ("(" ++ code ++ ")" : String).toList = '(' :: code.toList ++ [')'] := by
    show ("(" ++ code ++ ")" : String).data = '(' :: code.data ++ [')']
    rw [String.data_append, String.data_append,
      show "(".data = ['('] from rfl, show ")".data = [')'] from rfl]
    simp
  rw [pyStripChars, hdata, stripList_paren code.toList hcode]
  rfl

/-- A who cell holding only a `"(PHO)"`-style affiliation span. -/
def phoSpan : Node := Node.elem "span" [("class", "desc")] [Node.text " (PHO) "]

/-- A who cell containing the sample affiliation span. -/
def phoSpanCell : Node := Node.elem "td" [("class", "who")] [phoSpan]

/-- C7 witness: `" (PHO) "` strips to affiliation `"PHO"`. -/
theorem affiliation_parens_stripped_case : extractTeam phoSpanCell = "PHO" :=
  affiliation_parens_stripped phoSpanCell phoSpan "PHO" rfl (by decide) (by decide)

/-- C8: `parse_data` is deterministic — it is a pure function of the
markup and the table identifier, so re-extracting identical markup with
the same identifier yields a bit-identical result. -/
theorem parse_data_deterministic (h1 h2 : List Node) (s1 s2 : String)
    (hh : h1 = h2) (hs : s1 = s2) : parse_data h1 s1 = parse_data h2 s2 := by
  rw [hh, hs]

/-- C8 witness: two extractions of the same concrete document agree. -/
theorem parse_data_deterministic_case :
    parse_data docLeaders "leaders_pts_per_g" = parse_data docLeaders "leaders_pts_per_g" :=
  parse_data_deterministic docLeaders docLeaders "leaders_pts_per_g" "leaders_pts_per_g"
    rfl rfl

/-- C9: when the chosen statistic label contains `"percentage"` the
displayed value is the one-decimal rendering with a trailing `%`,
otherwise the one-decimal rendering with no suffix; in particular
`48.2` under `"field goal percentage"` renders as `"48.2%"` and `27.3`
under `"points per game"` renders as `"27.3"`. -/
theorem percentage_format (choice : String) (v : ℚ) :
    (isSubstrOf "percentage" choice = true → formatStat choice v = format1 v ++ "%") ∧
    (isSubstrOf "percentage" choice = false → formatStat choice v = format1 v) ∧
    formatStat "field goal percentage" (241/5) = "48.2%" ∧
    formatStat "points per game" (273/10) = "27.3" := by
  have h482 : format1 (241/5 : ℚ) = "48.2" := by
    have h : round ((241/5 : ℚ) * 10) = 482 := by norm_num
    simp only [format1, h]
    norm_num
    rfl
  have h273 : format1 (273/10 : ℚ) = "27.3" := by
    have h : round ((273/10 : ℚ) * 10) = 273 := by norm_num
    simp only [format1, h]
    norm_num
    rfl
  refine ⟨fun h => by simp [formatStat, h], fun h => by simp [formatStat, h], ?_, ?_⟩
  · have ht : isSubstrOf "percentage" "field goal percentage" = true := by decide
    simp [formatStat, ht, h482]
  · have hf : isSubstrOf "percentage" "points per game" = false := by decide
    simp [formatStat, hf, h273]

/-- C9 witness: a percentage label gets the `%` suffix, a per-game label
does not. -/
theorem percentage_format_case :
    formatStat "3 point percentage" (1/2 : ℚ) = format1 (1/2 : ℚ) ++ "%" ∧
    formatStat "rebounds per game" (1/2 : ℚ) = format1 (1/2 : ℚ) :=
  ⟨(percentage_format "3 point percentage" (1/2 : ℚ)).1 (by decide),
   (percentage_format "rebounds per game" (1/2 : ℚ)).2.1 (by decide)⟩

/-- C10: when the extracted data frame is `None` or empty, `save_to_csv`
returns `None` and writes no file — an empty extraction never creates an
output file. -/
theorem save_to_csv_empty_no_write (statName timestamp : String) (writeOk : Bool)
    (d : DataFrame) :
    save_to_csv none statName timestamp writeOk = (none, []) ∧
    (d.isEmpty = true → save_to_csv (some d) statName timestamp writeOk = (none, [])) := by
  refine ⟨rfl, fun h => ?_⟩
  simp [save_to_csv, h]

/-- C10 witness: `None` and the empty frame both produce no file. -/
theorem save_to_csv_empty_no_write_case :
    save_to_csv none "points per game" "20250101_000000" true = (none, []) ∧
    save_to_csv (some ⟨[], [], []⟩) "points per game" "20250101_000000" true = (none, []) :=
  ⟨(save_to_csv_empty_no_write "points per game" "20250101_000000" true ⟨[], [], []⟩).1,
   (save_to_csv_empty_no_write "points per game" "20250101_000000" true ⟨[], [], []⟩).2 rfl⟩
